import Mathlib

/-!
Verification development for the solar-system renderer
(src/src/components/SolarSystem.js).  The component builds a Three.js
scene (lights, sun, eight planets with text labels, a ring on Saturn,
orbit guide lines), runs a requestAnimationFrame loop that moves every
planet on a circle and spins it, reacts to window resize, and removes
the renderer canvas from the DOM on unmount.  Machine floats are
modelled exactly: registry constants as rationals, trigonometric
positions as real numbers.
-/

namespace Solar

/-- Registry constant: the eight planet texture paths (planetTextures). -/
def planetTextures : List String :=
  ["/assets/textures/mercury.jpg",
   "/assets/textures/venus.jpg",
   "/assets/textures/earth.jpg",
   "/assets/textures/mars.jpg",
   "/assets/textures/jupiter.jpg",
   "/assets/textures/saturn.jpg",
   "/assets/textures/uranys.jpg",
   "/assets/textures/neptune.jpg"]

/-- Registry constant: the eight orbit radii (planetDistances). -/
def planetDistances : List ℚ := [20, 30, 40, 50, 60, 70, 80, 100]

/-- Registry constant: the eight planet names (planetNames). -/
def planetNames : List String :=
  ["Mercury", "Venus", "Earth", "Mars", "Jupiter", "Saturn", "Uranus", "Neptune"]

/-- A point in the scene, as real coordinates. -/
structure Vec3 where
  x : ℝ
  y : ℝ
  z : ℝ

/-- A child object attached to a planet mesh: the SpriteText name label,
or the Saturn ring mesh (with its inner and outer radii). -/
inductive Attachment where
  | label (text : String)
  | ring (inner outer : ℚ)
deriving DecidableEq

/-- The mutable mesh of one planet: world position, accumulated y
rotation, and attached child objects. -/
structure PlanetMesh where
  position : Vec3
  rotY : ℚ
  children : List Attachment

/-- One entry of the planets array: the mesh plus the per-planet
constants distance, rotationSpeed and orbitSpeed. -/
structure Planet where
  mesh : PlanetMesh
  distance : ℚ
  rotationSpeed : ℚ
  orbitSpeed : ℚ

/-- The planet built at loop index i: starts at (distance, 0, 0) with
rotation 0, carries its name label, rotationSpeed 0.01 * (i + 1) and
orbitSpeed 0.02 / (i + 1), reading the two parallel arrays at index i
(out-of-range reads default, matching a JS undefined only where no
claim exercises it). -/
noncomputable def mkPlanet (distances : List ℚ) (names : List String) (i : ℕ) : Planet :=
  { mesh := { position := ⟨((distances.getD i 0 : ℚ) : ℝ), 0, 0⟩
              rotY := 0
              children := [Attachment.label (names.getD i "")] }
    distance := distances.getD i 0
    rotationSpeed := (0.01 : ℚ) * ((i : ℚ) + 1)
    orbitSpeed := (0.02 : ℚ) / ((i : ℚ) + 1) }

/-- The planetTextures.forEach build loop, carrying the running index. -/
noncomputable def mkPlanetsGo (distances : List ℚ) (names : List String) :
    List String → ℕ → List Planet
  | [], _ => []
  | _ :: ts, i => mkPlanet distances names i :: mkPlanetsGo distances names ts (i + 1)

/-- The planets array right after the forEach loop, before the ring is
attached. -/
noncomputable def buildPlanetsBase (textures : List String) (distances : List ℚ)
    (names : List String) : List Planet :=
  mkPlanetsGo distances names textures 0

/-- JS Array.indexOf on a list of strings: first matching index. -/
def indexOfName (target : String) : List String → Option ℕ
  | [] => none
  | n :: ns => if n = target then some 0 else (indexOfName target ns).map (· + 1)

/-- Replace the element at one index by applying f (other elements and
out-of-range indices untouched). -/
def modifyAt (f : Planet → Planet) : List Planet → ℕ → List Planet
  | [], _ => []
  | p :: ps, 0 => f p :: ps
  | p :: ps, i + 1 => p :: modifyAt f ps i

/-- createSaturnRings(2) attached to a planet mesh: appends a ring
child with radii 2 * 1.3 and 2 * 1.5. -/
def addRingTo (p : Planet) : Planet :=
  { p with mesh := { p.mesh with
      children := p.mesh.children ++ [Attachment.ring ((2 : ℚ) * 1.3) ((2 : ℚ) * 1.5)] } }

/-- The Saturn-ring step: look up the configured name in planetNames;
when found, add the ring to the planet at that index; otherwise do
nothing. -/
def addSaturnRing (names : List String) (planets : List Planet) : List Planet :=
  match indexOfName "Saturn" names with
  | some i => modifyAt addRingTo planets i
  | none => planets

/-- A direct child of the Three.js scene: the two lights, the sun mesh,
a planet mesh, or one orbit guide line (64 segments). -/
inductive SceneNode where
  | ambient
  | directional
  | sunMesh (rotY : ℚ)
  | planetNode (m : PlanetMesh)
  | orbitLine (radius : ℚ) (segments : ℕ)

/-- The scene as its ordered list of direct children. -/
structure Scene where
  children : List SceneNode

/-- The full scene build: lights and sun, then the ringed planets list,
then one orbit line per distance. -/
noncomputable def buildScene (textures : List String) (distances : List ℚ)
    (names : List String) : Scene :=
  { children :=
      [SceneNode.ambient, SceneNode.directional, SceneNode.sunMesh 0]
        ++ (addSaturnRing names (buildPlanetsBase textures distances names)).map
            (fun p => SceneNode.planetNode p.mesh)
        ++ distances.map (fun d => SceneNode.orbitLine d 64) }

/-- Number of scene-graph objects rooted at one direct child: a planet
mesh counts itself plus its attached children. -/
def nodeSize : SceneNode → ℕ
  | SceneNode.planetNode m => 1 + m.children.length
  | _ => 1

/-- Total number of objects in the scene graph. -/
def sceneNodeCount (s : Scene) : ℕ := (s.children.map nodeSize).sum

/-- Number of ring attachments on one planet. -/
def ringsOf (p : Planet) : ℕ :=
  p.mesh.children.countP (fun a => match a with | Attachment.ring _ _ => true | _ => false)

/-- Total number of ring attachments across a planets list. -/
def totalRings (l : List Planet) : ℕ := (l.map ringsOf).sum

/-- One body update of the animate loop at time value t: position.x and
position.z are overwritten from the circle formula, position.y is left
as it was, and rotation.y is incremented by rotationSpeed. -/
noncomputable def updatePlanet (t : ℝ) (p : Planet) : Planet :=
  { p with mesh := { p.mesh with
      position := ⟨(p.distance : ℝ) * Real.cos (t * (p.orbitSpeed : ℝ)),
                   p.mesh.position.y,
                   (p.distance : ℝ) * Real.sin (t * (p.orbitSpeed : ℝ))⟩
      rotY := p.mesh.rotY + p.rotationSpeed } }

/-- A sequence of animate-loop updates of one planet, at the given
sampled time values. -/
noncomputable def applyTicks : List ℝ → Planet → Planet
  | [], p => p
  | t :: ts, p => applyTicks ts (updatePlanet t p)

/-- The simulated state: the sun rotation and the planets array. -/
structure SimState where
  sunRotY : ℚ
  planets : List Planet

/-- One full animate tick at time value t: the sun rotation gains 0.01
and every planet is updated. -/
noncomputable def tick (t : ℝ) (s : SimState) : SimState :=
  { sunRotY := s.sunRotY + 0.01
    planets := s.planets.map (updatePlanet t) }

/-- The actual planets array of the component after the build,
ring included. -/
noncomputable def scenePlanets : List Planet :=
  addSaturnRing planetNames (buildPlanetsBase planetTextures planetDistances planetNames)

/-- The simulated state right after mount. -/
noncomputable def initialSim : SimState := { sunRotY := 0, planets := scenePlanets }

/-- The Earth entry of the registry (index 2). -/
noncomputable def earthBody : Planet := mkPlanet planetDistances planetNames 2

/-- A fallback planet for defaulted list reads. -/
noncomputable def dummyPlanet : Planet :=
  { mesh := { position := ⟨0, 0, 0⟩, rotY := 0, children := [] }
    distance := 0, rotationSpeed := 0, orbitSpeed := 0 }

/-- The DOM removeChild call: removes the given child, or raises
NotFoundError when it is not among the children. -/
def removeChildJs (children : List String) (child : String) :
    Except String (List String) :=
  if child ∈ children then Except.ok (children.erase child)
  else Except.error "NotFoundError"

/-- The useEffect cleanup: remove the renderer canvas from the mount
node.  This is all the cleanup does. -/
def cleanupUnmount (children : List String) : Except String (List String) :=
  removeChildJs children "rendererDomElement"

/-- Host state: the simulated scene plus the children of the mount
node. -/
structure AppState where
  sim : SimState
  mountChildren : List String

/-- The host state right after mount: built scene, canvas attached. -/
noncomputable def mountedApp : AppState :=
  { sim := initialSim, mountChildren := ["rendererDomElement"] }

/-- The effect of a successful cleanup on the host state: the canvas is
detached; nothing stops the animation callback, which stays
scheduled. -/
def runCleanup (a : AppState) : AppState :=
  { a with mountChildren := a.mountChildren.erase "rendererDomElement" }

/-- One firing of the scheduled animation callback: it unconditionally
re-schedules itself and runs the scene update. -/
noncomputable def animateTick (t : ℝ) (a : AppState) : AppState :=
  { a with sim := tick t a.sim }

/-- Camera and render-surface state touched by the resize listener. -/
structure ViewState where
  aspect : ℚ
  surfaceW : ℚ
  surfaceH : ℚ
  cameraPos : ℚ × ℚ × ℚ

/-- The resize listener: recompute the aspect from the new window
size and resize the render surface; the camera position is not
touched. -/
def onResize (w h : ℚ) (v : ViewState) : ViewState :=
  { v with aspect := w / h, surfaceW := w, surfaceH := h }

/-- The view state set up at mount for a window of size w by h: aspect
w / h, surface w by h, camera placed at (0, 50, 150). -/
def initialView (w h : ℚ) : ViewState :=
  { aspect := w / h, surfaceW := w, surfaceH := h, cameraPos := (0, 50, 150) }

/-! Helper lemmas. -/

/-- Normal form of the built planets array: eight planets in registry
order, the ring attached at index 5 (Saturn). -/
theorem scenePlanets_eq : scenePlanets =
    [mkPlanet planetDistances planetNames 0,
     mkPlanet planetDistances planetNames 1,
     mkPlanet planetDistances planetNames 2,
     mkPlanet planetDistances planetNames 3,
     mkPlanet planetDistances planetNames 4,
     addRingTo (mkPlanet planetDistances planetNames 5),
     mkPlanet planetDistances planetNames 6,
     mkPlanet planetDistances planetNames 7] := rfl

theorem mem_mkPlanetsGo {d : List ℚ} {n : List String} {p : Planet} :
    ∀ {ts : List String} {k : ℕ}, p ∈ mkPlanetsGo d n ts k → ∃ j, p = mkPlanet d n j := by
  intro ts
  induction ts with
  | nil => intro k h; cases h
  | cons t ts ih =>
    intro k h
    rw [mkPlanetsGo] at h
    rcases List.mem_cons.mp h with rfl | h
    · exact ⟨k, rfl⟩
    · exact ih h

theorem mem_modifyAt {f : Planet → Planet} {p : Planet} :
    ∀ {l : List Planet} {i : ℕ}, p ∈ modifyAt f l i →
      p ∈ l ∨ (i < l.length ∧ p = f (l.getD i dummyPlanet)) := by
  intro l
  induction l with
  | nil => intro i h; cases h
  | cons q l ih =>
    intro i h
    cases i with
    | zero =>
      rw [modifyAt] at h
      rcases List.mem_cons.mp h with rfl | h
      · exact Or.inr ⟨by simp, rfl⟩
      · exact Or.inl (List.mem_cons_of_mem _ h)
    | succ i =>
      rw [modifyAt] at h
      rcases List.mem_cons.mp h with rfl | h
      · exact Or.inl (List.mem_cons_self _ _)
      · rcases ih h with h' | ⟨hi, hp⟩
        · exact Or.inl (List.mem_cons_of_mem _ h')
        · exact Or.inr ⟨by simpa using Nat.succ_lt_succ hi, by simpa using hp⟩

theorem length_mkPlanetsGo {d : List ℚ} {n : List String} :
    ∀ (ts : List String) (k : ℕ), (mkPlanetsGo d n ts k).length = ts.length := by
  intro ts
  induction ts with
  | nil => intro k; rfl
  | cons t ts ih => intro k; simp [mkPlanetsGo, ih]

theorem length_modifyAt {f : Planet → Planet} :
    ∀ (l : List Planet) (i : ℕ), (modifyAt f l i).length = l.length := by
  intro l
  induction l with
  | nil => intro i; rfl
  | cons q l ih =>
    intro i
    cases i with
    | zero => rfl
    | succ i => simp [modifyAt, ih]

theorem getD_mkPlanetsGo {d : List ℚ} {n : List String} :
    ∀ (ts : List String) (k j : ℕ), j < ts.length →
      (mkPlanetsGo d n ts k).getD j dummyPlanet = mkPlanet d n (k + j) := by
  intro ts
  induction ts with
  | nil => intro k j h; cases h
  | cons t ts ih =>
    intro k j h
    cases j with
    | zero => rfl
    | succ j =>
      have := ih (k + 1) j (by simpa using Nat.lt_of_succ_lt_succ h)
      simpa [mkPlanetsGo, Nat.add_assoc, Nat.add_comm 1 j] using this

/-- Summing a planet weight over a modifyAt, when the modification adds
a fixed weight k to the touched element. -/
theorem sumMap_modifyAt (g : Planet → ℕ) (f : Planet → Planet) (k : ℕ)
    (hf : ∀ p, g (f p) = g p + k) :
    ∀ (l : List Planet) (i : ℕ), i < l.length →
      ((modifyAt f l i).map g).sum = (l.map g).sum + k := by
  intro l
  induction l with
  | nil => intro i h; cases h
  | cons q l ih =>
    intro i h
    cases i with
    | zero => simp [modifyAt, hf, Nat.add_assoc, Nat.add_comm k]
    | succ i =>
      have := ih i (by simpa using Nat.lt_of_succ_lt_succ h)
      simp [modifyAt, this, Nat.add_assoc]

theorem sumMap_mkPlanetsGo (g : Planet → ℕ) (c : ℕ)
    (hg : ∀ d n j, g (mkPlanet d n j) = c) {d : List ℚ} {n : List String} :
    ∀ (ts : List String) (k : ℕ), ((mkPlanetsGo d n ts k).map g).sum = c * ts.length := by
  intro ts
  induction ts with
  | nil => intro k; simp [mkPlanetsGo]
  | cons t ts ih =>
    intro k
    simp [mkPlanetsGo, hg, ih, Nat.mul_succ, Nat.add_comm]

theorem indexOfName_some_lt {s : String} :
    ∀ {l : List String} {i : ℕ}, indexOfName s l = some i → i < l.length := by
  intro l
  induction l with
  | nil => intro i h; cases h
  | cons n ns ih =>
    intro i h
    by_cases hn : n = s
    · simp [indexOfName, hn] at h
      subst h
      simp
    · simp [indexOfName, hn] at h
      rcases h with ⟨j, hj, rfl⟩
      simpa using Nat.succ_lt_succ (ih hj)

theorem indexOfName_some_getD {s : String} :
    ∀ {l : List String} {i : ℕ}, indexOfName s l = some i → l.getD i "" = s := by
  intro l
  induction l with
  | nil => intro i h; cases h
  | cons n ns ih =>
    intro i h
    by_cases hn : n = s
    · simp [indexOfName, hn] at h
      subst h
      simpa using hn
    · simp [indexOfName, hn] at h
      rcases h with ⟨j, hj, rfl⟩
      simpa using ih hj

theorem indexOfName_none_iff {s : String} :
    ∀ {l : List String}, indexOfName s l = none ↔ s ∉ l := by
  intro l
  induction l with
  | nil => simp [indexOfName]
  | cons n ns ih =>
    by_cases hn : n = s <;> simp [indexOfName, hn, ih]
    exact fun _ hsn => hn hsn.symm

/-- Every planet in the built array keeps its initial y coordinate 0
(the animate loop never writes position.y). -/
theorem posY_scenePlanets {p : Planet} (hp : p ∈ scenePlanets) :
    p.mesh.position.y = 0 := by
  have base : ∀ q : Planet,
      q ∈ buildPlanetsBase planetTextures planetDistances planetNames →
        q.mesh.position.y = 0 := by
    intro q hq
    rcases mem_mkPlanetsGo hq with ⟨j, rfl⟩
    rfl
  have hp' := hp
  unfold scenePlanets addSaturnRing at hp'
  rcases h : indexOfName "Saturn" planetNames with _ | i
  · rw [h] at hp'
    exact base p hp'
  · rw [h] at hp'
    rcases mem_modifyAt hp' with h' | ⟨hi, rfl⟩
    · exact base p h'
    · have : (buildPlanetsBase planetTextures planetDistances planetNames).getD i dummyPlanet
          = mkPlanet planetDistances planetNames i := by
        have hw : i < planetTextures.length := by
          have := hi
          unfold buildPlanetsBase at this
          rwa [length_mkPlanetsGo] at this
        unfold buildPlanetsBase
        simpa using getD_mkPlanetsGo planetTextures 0 i hw
      rw [this]
      rfl

/-- The Earth entry is the third element of the built array. -/
theorem earthBody_mem : earthBody ∈ scenePlanets := by
  rw [scenePlanets_eq]
  exact List.Mem.tail _ (List.Mem.tail _ (List.Mem.head _))

/-! Claim theorems. -/

/-- Claim C1: every animate update places a registry body at
(orbitRadius * cos(t * orbitRate), 0, orbitRadius * sin(t * orbitRate))
for the sampled time value t, and the Earth entry (orbit radius 40,
orbit rate 0.02 / 3) lands at (40, 0, 0) when t = 0. -/
theorem advance_position (t : ℝ) (p : Planet) (hp : p ∈ scenePlanets) :
    ((updatePlanet t p).mesh.position.x
        = (p.distance : ℝ) * Real.cos (t * (p.orbitSpeed : ℝ)) ∧
     (updatePlanet t p).mesh.position.y = 0 ∧
     (updatePlanet t p).mesh.position.z
        = (p.distance : ℝ) * Real.sin (t * (p.orbitSpeed : ℝ))) ∧
    earthBody.distance = 40 ∧ earthBody.orbitSpeed = 0.02 / 3 ∧
    (updatePlanet 0 earthBody).mesh.position.x = 40 ∧
    (updatePlanet 0 earthBody).mesh.position.y = 0 ∧
    (updatePlanet 0 earthBody).mesh.position.z = 0 := by
  refine ⟨⟨rfl, ?_, rfl⟩, ?_, ?_, ?_, rfl, ?_⟩
  · exact @posY_scenePlanets p hp
  · norm_num [earthBody, mkPlanet, planetDistances]
  · norm_num [earthBody, mkPlanet]
  · simp [updatePlanet, earthBody, mkPlanet, planetDistances]
  · simp [updatePlanet]

/-- Witness for C1 at t = 1 and the Earth entry. -/
theorem advance_position_witness :
    (((updatePlanet 1 earthBody).mesh.position.x
        = (earthBody.distance : ℝ) * Real.cos (1 * (earthBody.orbitSpeed : ℝ)) ∧
      (updatePlanet 1 earthBody).mesh.position.y = 0 ∧
      (updatePlanet 1 earthBody).mesh.position.z
        = (earthBody.distance : ℝ) * Real.sin (1 * (earthBody.orbitSpeed : ℝ))) ∧
     earthBody.distance = 40 ∧ earthBody.orbitSpeed = 0.02 / 3 ∧
     (updatePlanet 0 earthBody).mesh.position.x = 40 ∧
     (updatePlanet 0 earthBody).mesh.position.y = 0 ∧
     (updatePlanet 0 earthBody).mesh.position.z = 0) :=
  advance_position 1 earthBody earthBody_mem

/-- Counterexample to claim C2: one animate update of the Earth entry
at time value 100 leaves a self-rotation angle of 0.03 (one increment
of rotationSpeed), not 100 * 0.03 = 3. -/
theorem rotation_not_elapsed_based :
    (updatePlanet 100 earthBody).mesh.rotY = 0.03 ∧
    (100 : ℚ) * earthBody.rotationSpeed = 3 ∧
    (updatePlanet 100 earthBody).mesh.rotY ≠ (100 : ℚ) * earthBody.rotationSpeed := by
  refine ⟨?_, ?_, ?_⟩ <;> norm_num [updatePlanet, earthBody, mkPlanet]

/-- Claim C2 as amended: the self-rotation angle grows by rotationRate
per animation tick, independent of the sampled time values; it is
non-decreasing under further ticks whenever rotationRate is
non-negative, and 100 ticks of the Earth entry (rotationRate 0.03)
accumulate angle 3. -/
theorem rotation_per_tick :
    (∀ (ts : List ℝ) (p : Planet),
        (applyTicks ts p).mesh.rotY
          = p.mesh.rotY + (ts.length : ℚ) * p.rotationSpeed) ∧
    (∀ p : Planet, 0 ≤ p.rotationSpeed → ∀ ts more : List ℝ,
        (applyTicks ts p).mesh.rotY ≤ (applyTicks (ts ++ more) p).mesh.rotY) ∧
    (applyTicks (List.replicate 100 (0 : ℝ)) earthBody).mesh.rotY = 3 := by
  have formula : ∀ (ts : List ℝ) (p : Planet),
      (applyTicks ts p).mesh.rotY
        = p.mesh.rotY + (ts.length : ℚ) * p.rotationSpeed := by
    intro ts
    induction ts with
    | nil => intro p; simp [applyTicks]
    | cons t ts ih =>
      intro p
      rw [applyTicks, ih]
      simp only [updatePlanet, List.length_cons]
      push_cast
      ring
  refine ⟨formula, ?_, ?_⟩
  · intro p hr ts more
    rw [formula, formula]
    have hlen : ((ts.length : ℚ)) ≤ (((ts ++ more).length : ℚ)) := by
      simp
    have := mul_le_mul_of_nonneg_right hlen hr
    linarith
  · rw [formula]
    norm_num [earthBody, mkPlanet]

/-- Witness for the amended C2: one further tick of the Earth entry
does not decrease the angle. -/
theorem rotation_per_tick_witness :
    (applyTicks [(0 : ℝ)] earthBody).mesh.rotY
      ≤ (applyTicks ([(0 : ℝ)] ++ [1]) earthBody).mesh.rotY :=
  rotation_per_tick.2.1 earthBody (by norm_num [earthBody, mkPlanet]) [0] [1]

/-- Claim C3 failing run: the cleanup returned by the effect removes
only the canvas and never cancels the scheduled animation callback, so
the next tick after unmount still mutates the scene (the sun rotation
changes). -/
theorem tick_after_unmount_mutates :
    (runCleanup mountedApp).sim = mountedApp.sim ∧
    (animateTick 0 (runCleanup mountedApp)).sim.sunRotY
      ≠ (runCleanup mountedApp).sim.sunRotY := by
  refine ⟨rfl, ?_⟩
  norm_num [animateTick, tick, runCleanup, mountedApp, initialSim]

/-- Claim C5 failing run: the first cleanup removes the canvas; running
the cleanup again on the emptied mount node raises NotFoundError from
removeChild instead of being a no-op. -/
theorem second_unmount_raises :
    cleanupUnmount ["rendererDomElement"] = Except.ok ([] : List String) ∧
    cleanupUnmount [] = Except.error "NotFoundError" := by
  exact ⟨rfl, rfl⟩

/-- Claim C6: a registry body with positive orbit rate r stays on the
circle of radius orbitRadius in the plane y = 0, and its position is
periodic with period 2 * pi / r. -/
theorem orbit_circle_periodic (t : ℝ) (p : Planet) (hp : p ∈ scenePlanets)
    (hr : 0 < p.orbitSpeed) :
    ((updatePlanet t p).mesh.position.x) ^ 2 + ((updatePlanet t p).mesh.position.z) ^ 2
        = (p.distance : ℝ) ^ 2 ∧
    (updatePlanet t p).mesh.position.y = 0 ∧
    (updatePlanet (t + 2 * Real.pi / (p.orbitSpeed : ℝ)) p).mesh.position.x
        = (updatePlanet t p).mesh.position.x ∧
    (updatePlanet (t + 2 * Real.pi / (p.orbitSpeed : ℝ)) p).mesh.position.y
        = (updatePlanet t p).mesh.position.y ∧
    (updatePlanet (t + 2 * Real.pi / (p.orbitSpeed : ℝ)) p).mesh.position.z
        = (updatePlanet t p).mesh.position.z := by
  have hr0 : ((p.orbitSpeed : ℝ)) ≠ 0 := ne_of_gt (by exact_mod_cast hr)
  have key : (t + 2 * Real.pi / (p.orbitSpeed : ℝ)) * (p.orbitSpeed : ℝ)
      = t * (p.orbitSpeed : ℝ) + 2 * Real.pi := by
    field_simp
  refine ⟨?_, ?_, ?_, rfl, ?_⟩
  · simp only [updatePlanet]
    rw [mul_pow, mul_pow, ← mul_add, Real.cos_sq_add_sin_sq, mul_one]
  · exact @posY_scenePlanets p hp
  · simp only [updatePlanet]
    rw [key, Real.cos_add_two_pi]
  · simp only [updatePlanet]
    rw [key, Real.sin_add_two_pi]

/-- Witness for C6 at t = 1 and the Earth entry. -/
theorem orbit_circle_periodic_witness :
    (((updatePlanet 1 earthBody).mesh.position.x) ^ 2
        + ((updatePlanet 1 earthBody).mesh.position.z) ^ 2
        = (earthBody.distance : ℝ) ^ 2 ∧
     (updatePlanet 1 earthBody).mesh.position.y = 0 ∧
     (updatePlanet (1 + 2 * Real.pi / (earthBody.orbitSpeed : ℝ)) earthBody).mesh.position.x
        = (updatePlanet 1 earthBody).mesh.position.x ∧
     (updatePlanet (1 + 2 * Real.pi / (earthBody.orbitSpeed : ℝ)) earthBody).mesh.position.y
        = (updatePlanet 1 earthBody).mesh.position.y ∧
     (updatePlanet (1 + 2 * Real.pi / (earthBody.orbitSpeed : ℝ)) earthBody).mesh.position.z
        = (updatePlanet 1 earthBody).mesh.position.z) :=
  orbit_circle_periodic 1 earthBody earthBody_mem (by norm_num [earthBody, mkPlanet])

/-- Claim C7: the per-body update is a pure function of the sampled
time, the registry fields it reads and the prior transform state; two
bodies agreeing on those produce identical position and self-rotation
results even if other attributes differ. -/
theorem advance_deterministic (t : ℝ) (p q : Planet)
    (h1 : p.distance = q.distance) (h2 : p.orbitSpeed = q.orbitSpeed)
    (h3 : p.rotationSpeed = q.rotationSpeed) (h4 : p.mesh.rotY = q.mesh.rotY)
    (h5 : p.mesh.position.y = q.mesh.position.y) :
    (updatePlanet t p).mesh.position.x = (updatePlanet t q).mesh.position.x ∧
    (updatePlanet t p).mesh.position.y = (updatePlanet t q).mesh.position.y ∧
    (updatePlanet t p).mesh.position.z = (updatePlanet t q).mesh.position.z ∧
    (updatePlanet t p).mesh.rotY = (updatePlanet t q).mesh.rotY := by
  simp only [updatePlanet]
  rw [h1, h2, h3, h4, h5]
  exact ⟨rfl, rfl, rfl, rfl⟩

/-- A copy of the Earth entry with its label children stripped, used to
show that attachments do not influence the update. -/
noncomputable def earthBodyBare : Planet :=
  { earthBody with mesh := { earthBody.mesh with children := [] } }

/-- Witness for C7: the Earth entry and its label-stripped copy get
identical results at t = 5. -/
theorem advance_deterministic_witness :
    (updatePlanet 5 earthBody).mesh.position.x
        = (updatePlanet 5 earthBodyBare).mesh.position.x ∧
    (updatePlanet 5 earthBody).mesh.position.y
        = (updatePlanet 5 earthBodyBare).mesh.position.y ∧
    (updatePlanet 5 earthBody).mesh.position.z
        = (updatePlanet 5 earthBodyBare).mesh.position.z ∧
    (updatePlanet 5 earthBody).mesh.rotY = (updatePlanet 5 earthBodyBare).mesh.rotY :=
  advance_deterministic 5 earthBody earthBodyBare rfl rfl rfl rfl rfl

/-- Claim C9: the resize listener sets the camera aspect to w / h and
the render surface to (w, h) and leaves the camera position alone, for
every resize and in particular for the sequence (800, 600) then
(1920, 1080). -/
theorem resize_updates_view (w h w0 h0 : ℚ) (v : ViewState) :
    (onResize w h v).aspect = w / h ∧
    (onResize w h v).surfaceW = w ∧
    (onResize w h v).surfaceH = h ∧
    (onResize w h v).cameraPos = v.cameraPos ∧
    (onResize 800 600 (initialView w0 h0)).aspect = 800 / 600 ∧
    (onResize 1920 1080 (onResize 800 600 (initialView w0 h0))).aspect = 1920 / 1080 ∧
    (onResize 1920 1080 (onResize 800 600 (initialView w0 h0))).surfaceW = 1920 ∧
    (onResize 1920 1080 (onResize 800 600 (initialView w0 h0))).surfaceH = 1080 ∧
    (onResize 1920 1080 (onResize 800 600 (initialView w0 h0))).cameraPos = (0, 50, 150) :=
  ⟨rfl, rfl, rfl, rfl, rfl, rfl, rfl, rfl, rfl⟩

theorem sum_one_add (g : Planet → ℕ) :
    ∀ l : List Planet, (l.map (fun p => 1 + g p)).sum = l.length + (l.map g).sum := by
  intro l
  induction l with
  | nil => rfl
  | cons p l ih => simp [ih]; omega

theorem mem_getD_strings :
    ∀ (l : List String) (i : ℕ), i < l.length → l.getD i "" ∈ l := by
  intro l
  induction l with
  | nil => intro i h; cases h
  | cons n ns ih =>
    intro i h
    cases i with
    | zero => exact List.mem_cons_self _ _
    | succ i =>
      exact List.mem_cons_of_mem _ (ih i (by simpa using Nat.lt_of_succ_lt_succ h))

/-- Total child count across the planets array. -/
def childrenTotal (l : List Planet) : ℕ := (l.map (fun p => p.mesh.children.length)).sum

theorem childrenTotal_after_ring (textures : List String) (distances : List ℚ)
    (names : List String) (h : names.length = textures.length) :
    childrenTotal (addSaturnRing names (buildPlanetsBase textures distances names))
      = textures.length + (if "Saturn" ∈ names then 1 else 0) ∧
    (addSaturnRing names (buildPlanetsBase textures distances names)).length
      = textures.length ∧
    totalRings (addSaturnRing names (buildPlanetsBase textures distances names))
      = (if "Saturn" ∈ names then 1 else 0) := by
  have base_children : childrenTotal (buildPlanetsBase textures distances names)
      = textures.length := by
    unfold childrenTotal buildPlanetsBase
    simpa using sumMap_mkPlanetsGo (fun p => p.mesh.children.length) 1
      (fun _ _ _ => rfl) textures 0
  have base_rings : totalRings (buildPlanetsBase textures distances names) = 0 := by
    unfold totalRings buildPlanetsBase
    simpa using sumMap_mkPlanetsGo ringsOf 0 (fun _ _ _ => rfl) textures 0
  have base_len : (buildPlanetsBase textures distances names).length
      = textures.length := by
    unfold buildPlanetsBase
    exact length_mkPlanetsGo textures 0
  rcases hidx : indexOfName "Saturn" names with _ | j
  · have hnot : "Saturn" ∉ names := indexOfName_none_iff.mp hidx
    have hs : addSaturnRing names (buildPlanetsBase textures distances names)
        = buildPlanetsBase textures distances names := by
      simp [addSaturnRing, hidx]
    rw [hs]
    simp [hnot, base_children, base_len, base_rings]
  · have hin : "Saturn" ∈ names := by
      have hj := indexOfName_some_getD hidx
      have hjl := indexOfName_some_lt hidx
      rw [← hj]
      exact mem_getD_strings names j hjl
    have hjlen : j < (buildPlanetsBase textures distances names).length := by
      rw [base_len, ← h]
      exact indexOfName_some_lt hidx
    have hs : addSaturnRing names (buildPlanetsBase textures distances names)
        = modifyAt addRingTo (buildPlanetsBase textures distances names) j := by
      simp [addSaturnRing, hidx]
    rw [hs]
    refine ⟨?_, ?_, ?_⟩
    · unfold childrenTotal
      rw [sumMap_modifyAt (fun p => p.mesh.children.length) addRingTo 1
        (fun p => by simp [addRingTo]) _ j hjlen]
      have hb := base_children
      unfold childrenTotal at hb
      rw [hb]
      simp [hin]
    · rw [length_modifyAt, base_len]
    · unfold totalRings
      rw [sumMap_modifyAt ringsOf addRingTo 1
        (fun p => by simp [addRingTo, ringsOf]) _ j hjlen]
      have hb := base_rings
      unfold totalRings at hb
      rw [hb]
      simp [hin]

/-- Counterexample to claim C4: after build the scene graph holds 28
objects (2 lights, sun, 8 planet meshes, 8 labels, 1 ring, 8 orbit
guides), while the claimed count 2 * 8 + 1 + 1 + 1 is 19. -/
theorem scene_count_claim_false :
    sceneNodeCount (buildScene planetTextures planetDistances planetNames) = 28 ∧
    2 * 8 + 1 + 1 + 1 = 19 ∧
    sceneNodeCount (buildScene planetTextures planetDistances planetNames)
      ≠ 2 * 8 + 1 + 1 + 1 := by
  refine ⟨by decide, rfl, by decide⟩

/-- Claim C4 as amended: with N bodies the scene has 3 + N + D direct
children (two lights, the central body, N body meshes, D orbit guides)
and 3 + 2N + D + (1 if a body is named Saturn else 0) scene-graph
objects in total, labels and the ring being children of body meshes;
for the actual registry that is 19 direct children and 28 objects. -/
theorem scene_count_amended (textures : List String) (distances : List ℚ)
    (names : List String) (h : names.length = textures.length) :
    sceneNodeCount (buildScene textures distances names)
      = 3 + 2 * textures.length + distances.length
        + (if "Saturn" ∈ names then 1 else 0) ∧
    (buildScene textures distances names).children.length
      = 3 + textures.length + distances.length ∧
    sceneNodeCount (buildScene planetTextures planetDistances planetNames) = 28 ∧
    (buildScene planetTextures planetDistances planetNames).children.length = 19 := by
  obtain ⟨hc, hl, -⟩ := childrenTotal_after_ring textures distances names h
  refine ⟨?_, ?_, by decide, by decide⟩
  · unfold sceneNodeCount buildScene
    rw [List.map_append, List.map_append, List.sum_append, List.sum_append]
    have h1 : ([SceneNode.ambient, SceneNode.directional, SceneNode.sunMesh 0].map
        nodeSize).sum = 3 := rfl
    have h2 : (((addSaturnRing names (buildPlanetsBase textures distances names)).map
          (fun p => SceneNode.planetNode p.mesh)).map nodeSize).sum
        = textures.length + childrenTotal
            (addSaturnRing names (buildPlanetsBase textures distances names)) := by
      rw [List.map_map]
      have : (nodeSize ∘ fun p => SceneNode.planetNode p.mesh)
          = fun p : Planet => 1 + p.mesh.children.length := rfl
      rw [this, sum_one_add, hl]
      rfl
    have h3 : ((distances.map (fun d => SceneNode.orbitLine d 64)).map nodeSize).sum
        = distances.length := by
      rw [List.map_map]
      have : (nodeSize ∘ fun d : ℚ => SceneNode.orbitLine d 64) = fun _ : ℚ => 1 := rfl
      rw [this]
      simp
    rw [h1, h2, h3, hc]
    omega
  · unfold buildScene
    simp [hl]
    omega

/-- Witness for the amended C4 at the actual registry. -/
theorem scene_count_amended_witness :
    sceneNodeCount (buildScene planetTextures planetDistances planetNames)
      = 3 + 2 * planetTextures.length + planetDistances.length
        + (if "Saturn" ∈ planetNames then 1 else 0) :=
  (scene_count_amended planetTextures planetDistances planetNames rfl).1

/-- Claim C8: exactly one ring attachment exists when a body is named
Saturn, zero otherwise, and any ringed body carries the Saturn name
label. -/
theorem ring_attachment (textures : List String) (distances : List ℚ)
    (names : List String) (h : names.length = textures.length) :
    totalRings (addSaturnRing names (buildPlanetsBase textures distances names))
      = (if "Saturn" ∈ names then 1 else 0) ∧
    ∀ p, p ∈ addSaturnRing names (buildPlanetsBase textures distances names) →
      0 < ringsOf p → Attachment.label "Saturn" ∈ p.mesh.children := by
  obtain ⟨-, -, hr⟩ := childrenTotal_after_ring textures distances names h
  refine ⟨hr, ?_⟩
  intro p hp hring
  have base_zero : ∀ q : Planet,
      q ∈ buildPlanetsBase textures distances names → ringsOf q = 0 := by
    intro q hq
    rcases mem_mkPlanetsGo hq with ⟨j, rfl⟩
    rfl
  unfold addSaturnRing at hp
  rcases hidx : indexOfName "Saturn" names with _ | i
  · rw [hidx] at hp
    rw [base_zero p hp] at hring
    cases hring
  · rw [hidx] at hp
    rcases mem_modifyAt hp with hmem | ⟨hi, rfl⟩
    · rw [base_zero p hmem] at hring
      cases hring
    · have hilen : i < textures.length := by
        have := hi
        unfold buildPlanetsBase at this
        rwa [length_mkPlanetsGo] at this
      have hget : (buildPlanetsBase textures distances names).getD i dummyPlanet
          = mkPlanet distances names i := by
        unfold buildPlanetsBase
        simpa using getD_mkPlanetsGo textures 0 i hilen
      rw [hget]
      have hname : names.getD i "" = "Saturn" := indexOfName_some_getD hidx
      have hname' : names[i]?.getD "" = "Saturn" := by
        simpa [List.getD] using hname
      simp [addRingTo, mkPlanet, hname']

/-- Witness for C8 at the actual registry: exactly one ring. -/
theorem ring_attachment_witness :
    totalRings scenePlanets = (if "Saturn" ∈ planetNames then 1 else 0) :=
  (ring_attachment planetTextures planetDistances planetNames rfl).1

/-- Claim C10: the registry is eight planets in fixed order with
rotationSpeed 0.01 * (i + 1) and orbitSpeed 0.02 / (i + 1), both
positive; rotation rates strictly increase and orbit rates strictly
decrease outward, distances strictly increase, the three parallel
arrays all have length eight, and every planet carries its name
label and its registry distance. -/
theorem registry_invariants :
    planetTextures.length = 8 ∧ planetDistances.length = 8 ∧ planetNames.length = 8 ∧
    scenePlanets.length = 8 ∧
    (∀ i, i < 8 →
      (scenePlanets.getD i dummyPlanet).rotationSpeed = (0.01 : ℚ) * ((i : ℚ) + 1) ∧
      (scenePlanets.getD i dummyPlanet).orbitSpeed = (0.02 : ℚ) / ((i : ℚ) + 1) ∧
      0 < (scenePlanets.getD i dummyPlanet).rotationSpeed ∧
      0 < (scenePlanets.getD i dummyPlanet).orbitSpeed ∧
      (scenePlanets.getD i dummyPlanet).distance = planetDistances.getD i 0 ∧
      Attachment.label (planetNames.getD i "")
        ∈ (scenePlanets.getD i dummyPlanet).mesh.children) ∧
    (∀ i, i < 8 → ∀ j, j < 8 → i < j →
      (scenePlanets.getD i dummyPlanet).rotationSpeed
        < (scenePlanets.getD j dummyPlanet).rotationSpeed ∧
      (scenePlanets.getD j dummyPlanet).orbitSpeed
        < (scenePlanets.getD i dummyPlanet).orbitSpeed ∧
      (scenePlanets.getD i dummyPlanet).distance
        < (scenePlanets.getD j dummyPlanet).distance) := by
  refine ⟨rfl, rfl, rfl, rfl, ?_, ?_⟩
  · intro i hi
    rw [scenePlanets_eq]
    interval_cases i <;>
      norm_num [mkPlanet, addRingTo, planetDistances, planetNames]
  · intro i hi j hj hij
    rw [scenePlanets_eq]
    interval_cases i <;> interval_cases j <;> simp_all <;>
      norm_num [mkPlanet, addRingTo, planetDistances, planetNames]

/-- Witness for C10 at the Earth index. -/
theorem registry_invariants_witness :
    (scenePlanets.getD 2 dummyPlanet).rotationSpeed = (0.01 : ℚ) * ((2 : ℚ) + 1) ∧
    (scenePlanets.getD 2 dummyPlanet).orbitSpeed
      < (scenePlanets.getD 1 dummyPlanet).orbitSpeed :=
  ⟨(registry_invariants.2.2.2.2.1 2 (by norm_num)).1,
   (registry_invariants.2.2.2.2.2 1 (by norm_num) 2 (by norm_num) (by norm_num)).2.1⟩

end Solar

